import Mathlib

/-!
Verification of the Trainer orchestration core of this repository
(`pytorch_lightning/trainer/trainer.py`, `callback_hook.py`,
`deprecated_api.py`, `loggers/tensorboard.py`), via a shallow embedding:
the constructor is a straight-line state builder, exceptions are `Except`,
`warnings.warn` calls accumulate in a list, and callback hook invocations
accumulate in an event trace.
-/

namespace PL

/-- One emitted `warnings.warn(...)` call: the deprecated alias it concerns
and the message text passed to `warn`. -/
structure Warning where
  aliasTag : String
  msg : String
deriving DecidableEq, Repr

/-- A trace event: a callback lifecycle-hook invocation (`callback.on_x(self)`
from `TrainerCallbackHookMixin`, callbacks identified by a numeric id), or the
building of one piece of trainer state inside `Trainer.__init__`. -/
inductive Event where
  | hook (name : String) (cb : Nat)
  | build (field : String)
deriving DecidableEq, Repr

/-- The constructor arguments of `Trainer.__init__` that the claims touch,
with the defaults of the Python signature (trainer.py lines 77-126).
Deprecated aliases default to `none` (Python `None`). -/
structure TrainerArgs where
  callbacks : List Nat := []
  gradient_clip_val : ℚ := 0
  num_nodes : Nat := 1
  num_tpu_cores : Option Nat := none
  fast_dev_run : Bool := false
  max_epochs : Nat := 1000
  min_epochs : Nat := 1
  max_steps : Option Nat := none
  min_steps : Option Nat := none
  val_percent_check : ℚ := 1
  row_log_interval : Nat := 10
  add_row_log_interval : Option Nat := none
  precision : Int := 32
  print_nan_grads : Bool := false
  num_sanity_val_steps : Nat := 5
  gradient_clip : Option ℚ := none
  nb_gpu_nodes : Option Nat := none
  max_nb_epochs : Option Nat := none
  min_nb_epochs : Option Nat := none
  use_amp : Option Bool := none
  show_progress_bar : Option Bool := none
  nb_sanity_val_steps : Option Nat := none
deriving Repr

/-- The trainer fields built by `Trainer.__init__` that the claims touch,
together with the emitted warnings and the trace of hook invocations and
state-building steps. -/
structure TrainerState where
  callbacks : List Nat := []
  num_nodes : Nat := 1
  gradient_clip_val : ℚ := 0
  num_tpu_cores : Option Nat := none
  on_tpu : Bool := false
  max_epochs : Nat := 1000
  min_epochs : Nat := 1
  max_steps : Option Nat := none
  min_steps : Option Nat := none
  num_sanity_val_steps : Nat := 5
  fast_dev_run : Bool := false
  val_percent_check : ℚ := 1
  row_log_interval : Nat := 10
  precision : Int := 32
  warnings : List Warning := []
  trace : List Event := []
deriving Repr

/-- Each deprecated-argument block of `Trainer.__init__` has the same shape
(e.g. trainer.py lines 274-279 for `gradient_clip`): if the deprecated
argument is not `None`, `warnings.warn` fires for the argument, and the
assignment `self.old_name = value` goes through the deprecated property
setter of `deprecated_api.py`, which warns a second time and writes the
value onto the canonical field. Returns the resulting canonical value and
the warnings emitted by the block. -/
def resolveDeprecated {α : Type} (canonical : α) (deprecated : Option α)
    (argTag attrTag : String) (argMsg attrMsg : String) : α × List Warning :=
  match deprecated with
  | some v => (v, [⟨argTag, argMsg⟩, ⟨attrTag, attrMsg⟩])
  | none => (canonical, [])

/-- The for-loop body shared by every method of `TrainerCallbackHookMixin`
(callback_hook.py): `for callback in self.callbacks: callback.on_x(...)`,
invoking the hook on each registered callback in list order. -/
def fireHooks (name : String) : List Nat → List Event
  | [] => []
  | c :: cs => Event.hook name c :: fireHooks name cs

/-- `TrainerCallbackHookMixin.on_init_start` (callback_hook.py lines 15-18). -/
def on_init_start (cbs : List Nat) : List Event := fireHooks "on_init_start" cbs

/-- `TrainerCallbackHookMixin.on_init_end` (callback_hook.py lines 20-23). -/
def on_init_end (cbs : List Nat) : List Event := fireHooks "on_init_end" cbs

/-- `TrainerCallbackHookMixin.on_epoch_start` (callback_hook.py). -/
def on_epoch_start (cbs : List Nat) : List Event := fireHooks "on_epoch_start" cbs

/-- `TrainerCallbackHookMixin.on_epoch_end` (callback_hook.py). -/
def on_epoch_end (cbs : List Nat) : List Event := fireHooks "on_epoch_end" cbs

/-- `TrainerCallbackHookMixin.on_train_start` (callback_hook.py). -/
def on_train_start (cbs : List Nat) : List Event := fireHooks "on_train_start" cbs

/-- `TrainerCallbackHookMixin.on_train_end` (callback_hook.py). -/
def on_train_end (cbs : List Nat) : List Event := fireHooks "on_train_end" cbs

/-- `TrainerCallbackHookMixin.on_batch_start` (callback_hook.py). -/
def on_batch_start (cbs : List Nat) : List Event := fireHooks "on_batch_start" cbs

/-- `TrainerCallbackHookMixin.on_batch_end` (callback_hook.py). -/
def on_batch_end (cbs : List Nat) : List Event := fireHooks "on_batch_end" cbs

/-- `TrainerCallbackHookMixin.on_validation_start` (callback_hook.py). -/
def on_validation_start (cbs : List Nat) : List Event := fireHooks "on_validation_start" cbs

/-- `TrainerCallbackHookMixin.on_validation_end` (callback_hook.py). -/
def on_validation_end (cbs : List Nat) : List Event := fireHooks "on_validation_end" cbs

/-- `TrainerCallbackHookMixin.on_test_start` (callback_hook.py). -/
def on_test_start (cbs : List Nat) : List Event := fireHooks "on_test_start" cbs

/-- `TrainerCallbackHookMixin.on_test_end` (callback_hook.py). -/
def on_test_end (cbs : List Nat) : List Event := fireHooks "on_test_end" cbs

/-- The state-building steps of `Trainer.__init__` between the
`on_init_start` call (line 258) and the `on_init_end` call (line 461),
restricted to the fields this embedding tracks, in source order. -/
def initBuildEvents : List Event :=
  [Event.build "num_nodes", Event.build "gradient_clip_val",
   Event.build "num_tpu_cores", Event.build "max_epochs",
   Event.build "min_epochs", Event.build "max_steps", Event.build "min_steps",
   Event.build "num_sanity_val_steps", Event.build "fast_dev_run",
   Event.build "val_percent_check", Event.build "row_log_interval",
   Event.build "precision"]

/-- `Trainer.__init__` (trainer.py lines 256-461), restricted to the
arguments and fields of this embedding, in source order:
`self.callbacks = callbacks` and `on_init_start` first; then field
assignments with their deprecated-alias blocks; the `num_tpu_cores`
assertion (line 289); the `fast_dev_run` override of
`num_sanity_val_steps` and `max_epochs` (lines 331-334); the
`add_row_log_interval` and `use_amp` compatibility blocks; the precision
assertion (line 454); and `on_init_end` last. Failing assertions become
`Except.error` with the assertion message. -/
def initTrainer (a : TrainerArgs) : Except String TrainerState :=
  let startHooks := on_init_start a.callbacks
  let nn := resolveDeprecated a.num_nodes a.nb_gpu_nodes "nb_gpu_nodes" "num_gpu_nodes"
    "Argument `nb_gpu_nodes` has renamed to `num_nodes` since v0.5.0 and this method will be removed in v0.8.0"
    "Attribute `num_gpu_nodes` has renamed to `num_nodes` since v0.5.0 and this method will be removed in v0.8.0"
  let gc := resolveDeprecated a.gradient_clip_val a.gradient_clip "gradient_clip" "gradient_clip"
    "Argument `gradient_clip` has renamed to `gradient_clip_val` since v0.5.0 and this method will be removed in v0.8.0"
    "Attribute `gradient_clip` has renamed to `gradient_clip_val` since v0.5.0 and this method will be removed in v0.8.0"
  if ([some 1, some 8, none] : List (Option Nat)).contains a.num_tpu_cores then
    let me := resolveDeprecated a.max_epochs a.max_nb_epochs "max_nb_epochs" "max_nb_epochs"
      "Argument `max_nb_epochs` has renamed to `max_epochs` since v0.5.0 and this method will be removed in v0.8.0"
      "Attribute `max_nb_epochs` has renamed to `max_epochs` since v0.5.0 and this method will be removed in v0.8.0"
    let mne := resolveDeprecated a.min_epochs a.min_nb_epochs "min_nb_epochs" "min_nb_epochs"
      "Argument `min_nb_epochs` has renamed to `min_epochs` since v0.5.0 and this method will be removed in v0.8.0"
      "Attribute `min_nb_epochs` has renamed to `min_epochs` since v0.5.0 and this method will be removed in v0.8.0"
    let sv := resolveDeprecated a.num_sanity_val_steps a.nb_sanity_val_steps "nb_sanity_val_steps" "nb_sanity_val_steps"
      "Argument `nb_sanity_val_steps` has renamed to `num_sanity_val_steps` since v0.5.0 and this method will be removed in v0.8.0"
      "Attribute `nb_sanity_val_steps` has renamed to `num_sanity_val_steps` since v0.5.0 and this method will be removed in v0.8.0"
    let wNan : List Warning :=
      if a.print_nan_grads then
        [⟨"print_nan_grads", "Argument `print_nan_grads` has no effect and will be removed in v0.9.0. NaN grads will be printed automatically when detected."⟩]
      else []
    let sanitySteps := if a.fast_dev_run then 0 else sv.1
    let maxEp := if a.fast_dev_run then 1 else me.1
    let wPb : List Warning :=
      match a.show_progress_bar with
      | some _ => [⟨"show_progress_bar", "Argument `show_progress_bar` is now set by `progress_bar_refresh_rate` since v0.7.2 and this method will be removed in v0.9.0"⟩]
      | none => []
    let rowW : Nat × List Warning :=
      match a.add_row_log_interval with
      | some v => (if a.row_log_interval = 0 then v else a.row_log_interval,
          [⟨"add_row_log_interval", "`add_row_log_interval` has renamed to `row_log_interval` since v0.5.0 and this method will be removed in v0.8.0"⟩])
      | none => (a.row_log_interval, [])
    let precW : Int × List Warning :=
      match a.use_amp with
      | some b => ((if b then 16 else 32),
          [⟨"use_amp", "`use_amp` has been replaced by `precision` since v0.7.0 and this argument will be removed in v0.9.0"⟩])
      | none => (a.precision, [])
    if ([16, 32] : List Int).contains precW.1 then
      .ok
        { callbacks := a.callbacks
          num_nodes := nn.1
          gradient_clip_val := gc.1
          num_tpu_cores := a.num_tpu_cores
          on_tpu := a.num_tpu_cores.isSome
          max_epochs := maxEp
          min_epochs := mne.1
          max_steps := a.max_steps
          min_steps := a.min_steps
          num_sanity_val_steps := sanitySteps
          fast_dev_run := a.fast_dev_run
          val_percent_check := a.val_percent_check
          row_log_interval := rowW.1
          precision := precW.1
          warnings := nn.2 ++ gc.2 ++ me.2 ++ mne.2 ++ sv.2 ++ wNan ++ wPb ++ rowW.2 ++ precW.2
          trace := startHooks ++ initBuildEvents ++ on_init_end a.callbacks }
    else .error "only 32 or 16 bit precision supported"
  else .error "num_tpu_cores can only be 1 or 8"

/-- Modelled from the spec: the batch-limiting policy of the training loop
(`pytorch_lightning/trainer/training_loop.py`, not among the sources).
Under `fast_dev_run` the run uses a single batch of each of train, val and
test, overriding the percent-check truncated length. -/
def numBatchesRun (fast_dev_run : Bool) (truncatedLen : Nat) : Nat :=
  if fast_dev_run then 1 else truncatedLen

/-- `run_pretrain_routine` line 825: validation is disabled when
`validation_step` is not overridden or `val_percent_check` is 0, except
under `fast_dev_run`. -/
def disable_validation (st : TrainerState) (validationStepOverridden : Bool) : Bool :=
  (!(validationStepOverridden && decide (0 < st.val_percent_check))) && !st.fast_dev_run

/-- `run_pretrain_routine` line 831: the sanity-check validation pass runs
only when validation is enabled and `num_sanity_val_steps > 0`. -/
def sanityCheckRuns (st : TrainerState) (validationStepOverridden : Bool) : Bool :=
  (!disable_validation st validationStepOverridden) && decide (0 < st.num_sanity_val_steps)

/-- Did an `initTrainer` run succeed (no assertion failed)? -/
def exceptOk {ε α : Type} : Except ε α → Bool
  | .ok _ => true
  | .error _ => false

/-- The error message of a failed run, `none` on success. -/
def errMsgOf {α : Type} : Except String α → Option String
  | .error e => some e
  | .ok _ => none

/-- The concrete input for claim C3: `gradient_clip=0.5` with the canonical
`gradient_clip_val` left at its default. -/
def c3args : TrainerArgs := { gradient_clip := some (1/2 : ℚ) }

/-- The concrete input for claim C4: `precision=8` (outside the valid set)
together with the deprecated `use_amp=True`. -/
def c4args : TrainerArgs := { precision := 8, use_amp := some true }

/-- Claim C2: constructing a trainer with `fast_dev_run=True` yields
`max_epochs = 1` regardless of every other argument supplied, and the
(spec-modelled) loop policy then runs exactly one batch. -/
theorem fast_dev_run_forces_single_epoch (a : TrainerArgs) (n : Nat) :
    (initTrainer { a with fast_dev_run := true }).toOption.map (fun st => st.max_epochs)
      = (initTrainer { a with fast_dev_run := true }).toOption.map (fun _ => 1)
  ∧ numBatchesRun true n = 1 := by
  constructor
  · simp only [initTrainer]
    split
    · split <;> rfl
    · rfl
  · rfl

/-- Claim C10: constructing a trainer with `fast_dev_run=True` forces
`num_sanity_val_steps` to 0 regardless of the value supplied, so the
pre-training sanity-check guard of `run_pretrain_routine` is false. -/
theorem fast_dev_run_skips_sanity_check (a : TrainerArgs) (vso : Bool) :
    (initTrainer { a with fast_dev_run := true }).toOption.map (fun st => st.num_sanity_val_steps)
      = (initTrainer { a with fast_dev_run := true }).toOption.map (fun _ => 0)
  ∧ (initTrainer { a with fast_dev_run := true }).toOption.map (fun st => sanityCheckRuns st vso)
      = (initTrainer { a with fast_dev_run := true }).toOption.map (fun _ => false) := by
  constructor
  · simp only [initTrainer]
    split
    · split <;> rfl
    · rfl
  · dsimp only [initTrainer]
    split
    · split
      · simp [sanityCheckRuns, Except.toOption]
      · rfl
    · rfl

/-- Counterexample to claim C3 as stated: at `gradient_clip=0.5` the
constructed trainer has `gradient_clip_val = 0.5`, but two compatibility
warnings are emitted for the `gradient_clip` alias (the constructor block
and the deprecated property setter it invokes), not exactly one. -/
theorem gradient_clip_alias_warns_twice :
    (initTrainer c3args).toOption.map (fun st => st.gradient_clip_val) = some (1/2 : ℚ)
  ∧ (initTrainer c3args).toOption.map
      (fun st => (st.warnings.filter (fun w => w.aliasTag == "gradient_clip")).length) = some 2
  ∧ ((initTrainer c3args).toOption.map
      (fun st => (st.warnings.filter (fun w => w.aliasTag == "gradient_clip")).length) == some 1) = false := by
  refine ⟨rfl, rfl, rfl⟩

/-- Claim C3 (amended): supplying the deprecated `gradient_clip` alias with
the canonical field left at its default copies the value onto
`gradient_clip_val` and proceeds, but emits two compatibility warnings for
the alias (one from the constructor argument check, one from the deprecated
property setter it invokes), not one. -/
theorem gradient_clip_alias_copied (a : TrainerArgs) (v : ℚ) :
    (initTrainer { a with gradient_clip := some v, gradient_clip_val := 0 }).toOption.map
      (fun st => st.gradient_clip_val)
      = (initTrainer { a with gradient_clip := some v, gradient_clip_val := 0 }).toOption.map
      (fun _ => v)
  ∧ (initTrainer { a with gradient_clip := some v, gradient_clip_val := 0 }).toOption.map
      (fun st => (st.warnings.filter (fun w => w.aliasTag == "gradient_clip")).length)
      = (initTrainer { a with gradient_clip := some v, gradient_clip_val := 0 }).toOption.map
      (fun _ => 2) := by
  constructor
  · simp only [initTrainer]
    split
    · split <;> rfl
    · rfl
  · dsimp only [initTrainer]
    split
    · split
      · dsimp only [Except.toOption, Option.map]
        simp only [Option.some.injEq]
        cases a.nb_gpu_nodes <;>
          cases a.max_nb_epochs <;>
          cases a.min_nb_epochs <;>
          cases a.nb_sanity_val_steps <;>
          cases a.print_nan_grads <;>
          cases a.show_progress_bar <;>
          cases a.add_row_log_interval <;>
          cases a.use_amp <;>
          simp [resolveDeprecated]
      · rfl
    · rfl

/-- Counterexample to claim C4 as stated: constructing with `precision=8`
(not in the valid set) together with the deprecated `use_amp=True`
succeeds — the `use_amp` compatibility block overwrites `precision` with 16
before the assertion runs — so a bad precision value does not always fail. -/
theorem bad_precision_constructs_under_use_amp :
    (([16, 32] : List Int).contains c4args.precision = false)
  ∧ exceptOk (initTrainer c4args) = true
  ∧ (initTrainer c4args).toOption.map (fun st => st.precision) = some 16 := by
  refine ⟨rfl, rfl, rfl⟩

/-- Claim C4 (amended): with the deprecated `use_amp` argument unset,
construction fails exactly when `precision` is outside 16 and 32 or
`num_tpu_cores` is outside 1, 8 and None, and any failure carries one of
the two assertion messages; when `use_amp` is supplied it overwrites
`precision` with 16 or 32 before the check, so a bad `precision` is not
rejected. -/
theorem precision_and_tpu_cores_validated (a : TrainerArgs) :
    exceptOk (initTrainer { a with use_amp := none })
      = (([some 1, some 8, none] : List (Option Nat)).contains a.num_tpu_cores
         && ([16, 32] : List Int).contains a.precision)
  ∧ (errMsgOf (initTrainer { a with use_amp := none })).all
      (fun e => e == "num_tpu_cores can only be 1 or 8"
             || e == "only 32 or 16 bit precision supported") = true := by
  constructor
  · dsimp only [initTrainer]
    split
    · split
      · rename_i h1 h2
        simp at h1 h2
        simp [exceptOk]
        tauto
      · rename_i h1 h2
        simp at h1 h2
        simp [exceptOk]
        tauto
    · rename_i h1
      simp at h1
      simp [exceptOk]
      tauto
  · dsimp only [initTrainer]
    split
    · split <;> rfl
    · rfl

/-- Which methods of the `LightningModule` capability set the user's model
overrides; the inputs of `Trainer.is_overriden` as `check_model_configuration`
consults them. -/
structure ModelCaps where
  training_step : Bool := false
  train_dataloader : Bool := false
  configure_optimizers : Bool := false
  val_dataloader : Bool := false
  validation_step : Bool := false
  validation_epoch_end : Bool := false
  test_dataloader : Bool := false
  test_step : Bool := false
  test_epoch_end : Bool := false
deriving DecidableEq, Repr

/-- Whether a capability set overrides the method of the given name. -/
def ModelCaps.hasMethod (m : ModelCaps) : String → Bool
  | "training_step" => m.training_step
  | "train_dataloader" => m.train_dataloader
  | "configure_optimizers" => m.configure_optimizers
  | "val_dataloader" => m.val_dataloader
  | "validation_step" => m.validation_step
  | "validation_epoch_end" => m.validation_epoch_end
  | "test_dataloader" => m.test_dataloader
  | "test_step" => m.test_step
  | "test_epoch_end" => m.test_epoch_end
  | _ => true

/-- A raised `MisconfigurationException`: the method whose absence the
raising check detected, and the verbatim message text. -/
structure McError where
  missingMethod : String
  msg : String
deriving DecidableEq, Repr

/-- `Trainer.check_model_configuration` (trainer.py lines 910-964): the
three minimum-capability checks, then the `val_dataloader`/`validation_step`
pairing in both directions (with a `RuntimeWarning` when
`validation_epoch_end` is absent), then the same for the test trio. The
first failing check raises; on success the accumulated warnings are
returned. -/
def check_model_configuration (m : ModelCaps) : Except McError (List String) :=
  if !m.training_step then
    .error ⟨"training_step", "No `training_step()` method defined. Lightning `Trainer` expects as minimum a `training_step()`, `training_dataloader()` and `configure_optimizers()` to be defined."⟩
  else if !m.train_dataloader then
    .error ⟨"train_dataloader", "No `train_dataloader()` method defined. Lightning `Trainer` expects as minimum a `training_step()`, `training_dataloader()` and `configure_optimizers()` to be defined."⟩
  else if !m.configure_optimizers then
    .error ⟨"configure_optimizers", "No `configure_optimizers()` method defined. Lightning `Trainer` expects as minimum a `training_step()`, `training_dataloader()` and `configure_optimizers()` to be defined."⟩
  else
    match (if m.val_dataloader then
             if !m.validation_step then
               Except.error (⟨"validation_step", "You have passed in a `val_dataloader()` but have not defined `validation_step()`."⟩ : McError)
             else if !m.validation_epoch_end then
               Except.ok ["You have defined a `val_dataloader()` and have defined a `validation_step()`, you may also want to define `validation_epoch_end()` for accumulating stats."]
             else Except.ok []
           else if m.validation_step then
             Except.error (⟨"val_dataloader", "You have defined `validation_step()`, but have not passed in a val_dataloader()."⟩ : McError)
           else Except.ok []) with
    | .error e => .error e
    | .ok valWarns =>
      match (if m.test_dataloader then
               if !m.test_step then
                 Except.error (⟨"test_step", "You have passed in a `test_dataloader()` but have not defined `test_step()`."⟩ : McError)
               else if !m.test_epoch_end then
                 Except.ok ["You have defined a `test_dataloader()` and have defined a `test_step()`, you may also want to define `test_epoch_end()` for accumulating stats."]
               else Except.ok []
             else if m.test_step then
               Except.error (⟨"test_dataloader", "You have defined `test_step()`, but have not passed in a `test_dataloader()`."⟩ : McError)
             else Except.ok []) with
      | .error e => .error e
      | .ok testWarns => .ok (valWarns ++ testWarns)

/-- The model-contract violation exactly as the specification words it:
one of the minimum capabilities absent, or the validation pairing broken in
either direction, or the test pairing broken in either direction. Stated
from the spec, to be compared with `check_model_configuration` as embedded
from the source. -/
def specContractViolation (m : ModelCaps) : Bool :=
  !m.training_step || !m.train_dataloader || !m.configure_optimizers
  || (m.val_dataloader && !m.validation_step) || (m.validation_step && !m.val_dataloader)
  || (m.test_dataloader && !m.test_step) || (m.test_step && !m.test_dataloader)

/-- The missing method named by a raised check, `none` on success. -/
def checkErrName (m : ModelCaps) : Option String :=
  match check_model_configuration m with
  | .error e => some e.missingMethod
  | .ok _ => none

/-- `_PatchDataLoader` (trainer.py lines 967-986): a pickle-compatible
callable object storing the dataloader passed into `fit`; calling it
returns that dataloader. -/
structure PatchDataLoader (δ : Type) where
  dataloader : δ

/-- `_PatchDataLoader.__call__` (trainer.py lines 985-986). -/
def PatchDataLoader.call {δ : Type} (p : PatchDataLoader δ) : Option δ :=
  some p.dataloader

/-- The user model as `fit` sees it: its capability set, and its three
dataloader factories. A factory returning `none` stands for the
non-overridden `LightningModule` base method. -/
structure LModel (δ : Type) where
  caps : ModelCaps
  train_dl : Unit → Option δ
  val_dl : Unit → Option δ
  test_dl : Unit → Option δ

/-- `Trainer.__attach_dataloaders` (trainer.py lines 752-762): each
dataloader passed into `fit` that is not `None` replaces the model's
corresponding factory with a `_PatchDataLoader` holding it. The capability
flag is set alongside, embedding that `is_overriden` (model_hooks mixin)
detects a `_PatchDataLoader` via its `patch_loader_code` marker and reports
the method as overridden. -/
def attach_dataloaders {δ : Type} (m : LModel δ)
    (train_dataloader val_dataloaders test_dataloaders : Option δ) : LModel δ :=
  let m := match train_dataloader with
    | some dl => { m with train_dl := fun _ => (PatchDataLoader.mk dl).call,
                          caps := { m.caps with train_dataloader := true } }
    | none => m
  let m := match val_dataloaders with
    | some dl => { m with val_dl := fun _ => (PatchDataLoader.mk dl).call,
                          caps := { m.caps with val_dataloader := true } }
    | none => m
  match test_dataloaders with
  | some dl => { m with test_dl := fun _ => (PatchDataLoader.mk dl).call,
                        caps := { m.caps with test_dataloader := true } }
  | none => m

/-- The execution-routing flags `Trainer.fit` consults (trainer.py lines
679-727), as set up by `__init__`. -/
structure RunFlags where
  use_ddp2 : Bool := false
  use_ddp : Bool := false
  use_dp : Bool := false
  single_gpu : Bool := false
  use_tpu : Bool := false
  use_amp : Bool := false
deriving DecidableEq, Repr

/-- The externally visible steps a `fit` call performs after the model
check passes. -/
inductive RunEvent where
  | prepare_data
  | launch (mode : String)
  | init_optim
  | pretrain
  | train
deriving DecidableEq, Repr

/-- Did the run reach the core training loop? -/
def ranTraining (r : Except String Nat × List RunEvent) : Bool :=
  r.2.contains RunEvent.train

/-- `Trainer.fit` (trainer.py lines 613-738): attach the passed
dataloaders, check the model configuration (raising on violation before
anything runs), call `model.prepare_data()`, route to the configured
execution strategy — on the CPU path raising `MisconfigurationException`
when amp is requested — and return the success sentinel 1 at the end.
Returns the outcome together with the trace of performed steps. -/
def fit {δ : Type} (t : RunFlags) (m : LModel δ)
    (train_dataloader val_dataloaders test_dataloaders : Option δ) :
    Except String Nat × List RunEvent :=
  let m := attach_dataloaders m train_dataloader val_dataloaders test_dataloaders
  match check_model_configuration m.caps with
  | .error e => (.error e.msg, [])
  | .ok _ =>
    let ev := [RunEvent.prepare_data]
    if t.use_ddp2 then (.ok 1, ev ++ [RunEvent.launch "ddp2", RunEvent.train])
    else if t.use_ddp then (.ok 1, ev ++ [RunEvent.launch "ddp", RunEvent.train])
    else if t.use_dp then (.ok 1, ev ++ [RunEvent.launch "dp", RunEvent.train])
    else if t.single_gpu then (.ok 1, ev ++ [RunEvent.launch "single_gpu", RunEvent.train])
    else if t.use_tpu then (.ok 1, ev ++ [RunEvent.launch "tpu", RunEvent.train])
    else if t.use_amp then
      (.error "amp + cpu is not supported.  Please use a GPU option", ev)
    else (.ok 1, ev ++ [RunEvent.init_optim, RunEvent.pretrain, RunEvent.train])

/-- The check succeeds exactly on the violation-free capability sets of the
specification's contract. -/
theorem check_ok_iff_no_violation (m : ModelCaps) :
    exceptOk (check_model_configuration m) = !specContractViolation m := by
  obtain ⟨a1, a2, a3, a4, a5, a6, a7, a8, a9⟩ := m
  cases a1 <;> cases a2 <;> cases a3 <;> cases a4 <;> cases a5 <;>
    cases a6 <;> cases a7 <;> cases a8 <;> cases a9 <;> rfl

/-- Claim C1: `check_model_configuration` accepts exactly the models
satisfying the contract of the specification (minimum capability set, and
the validation and test pairings in both directions); every raised error
names a method the model indeed lacks; and on a contract violation `fit`
raises, with the training loop never reached. -/
theorem model_contract_validated_before_fit (m : ModelCaps) (t : RunFlags)
    (mdl : LModel Nat) (tr vl ts : Option Nat) :
    (exceptOk (check_model_configuration m) = !specContractViolation m)
  ∧ ((checkErrName m).all (fun s => !(m.hasMethod s)) = true)
  ∧ (specContractViolation (attach_dataloaders mdl tr vl ts).caps = false
      ∨ ((∃ e, (fit t mdl tr vl ts).1 = .error e)
          ∧ ranTraining (fit t mdl tr vl ts) = false)) := by
  refine ⟨check_ok_iff_no_violation m, ?_, ?_⟩
  · obtain ⟨a1, a2, a3, a4, a5, a6, a7, a8, a9⟩ := m
    cases a1 <;> cases a2 <;> cases a3 <;> cases a4 <;> cases a5 <;>
      cases a6 <;> cases a7 <;> cases a8 <;> cases a9 <;> rfl
  · by_cases hv : specContractViolation (attach_dataloaders mdl tr vl ts).caps = true
    · right
      have h1 := check_ok_iff_no_violation (attach_dataloaders mdl tr vl ts).caps
      rw [hv] at h1
      cases hc : check_model_configuration (attach_dataloaders mdl tr vl ts).caps with
      | ok w => rw [hc] at h1; simp [exceptOk] at h1
      | error e =>
        constructor
        · exact ⟨e.msg, by simp [fit, hc]⟩
        · simp [fit, hc, ranTraining]
    · left
      simpa using hv

/-- Claim C7: each non-`None` dataloader passed into `fit` replaces the
model's corresponding factory, and calling the replaced factory returns
exactly the dataloader that was passed in. -/
theorem attached_loader_round_trip {δ : Type} (m : LModel δ) (tr vl ts : Option δ)
    (d e f : δ) :
    ((attach_dataloaders m (some d) vl ts).train_dl () = some d)
  ∧ ((attach_dataloaders m tr (some e) ts).val_dl () = some e)
  ∧ ((attach_dataloaders m tr vl (some f)).test_dl () = some f) := by
  refine ⟨?_, ?_, ?_⟩
  · cases vl <;> cases ts <;> rfl
  · cases tr <;> cases ts <;> rfl
  · cases tr <;> cases vl <;> rfl

/-- Claim C8: `fit` either returns the success sentinel 1 or raises — no
other return value exists — and on the CPU path with amp requested it
raises the `MisconfigurationException` about amp on CPU (unless the model
configuration check raised first). -/
theorem fit_success_sentinel {δ : Type} (t : RunFlags) (m : LModel δ)
    (tr vl ts : Option δ) :
    ((fit t m tr vl ts).1 = .ok 1 ∨ ∃ e, (fit t m tr vl ts).1 = .error e)
  ∧ ((fit { use_amp := true } m tr vl ts).1
        = .error "amp + cpu is not supported.  Please use a GPU option"
      ∨ ∃ e, check_model_configuration (attach_dataloaders m tr vl ts).caps = .error e
           ∧ (fit { use_amp := true } m tr vl ts).1 = .error e.msg) := by
  constructor
  · simp only [fit]
    cases hc : check_model_configuration (attach_dataloaders m tr vl ts).caps with
    | error e => simp
    | ok w => split_ifs <;> simp
  · cases hc : check_model_configuration (attach_dataloaders m tr vl ts).caps with
    | error e => exact Or.inr ⟨e, rfl, by simp [fit, hc]⟩
    | ok w => exact Or.inl (by simp [fit, hc])

/-- Each hook-mixin loop invokes the hook on the callbacks in list order. -/
theorem fireHooks_eq_map (name : String) (cbs : List Nat) :
    fireHooks name cbs = cbs.map (Event.hook name) := by
  induction cbs with
  | nil => rfl
  | cons c cs ih => simp [fireHooks, ih]

/-- Claim C6: every lifecycle hook of `TrainerCallbackHookMixin` fires on
every registered callback in exactly registration order, and in
`Trainer.__init__` the `on_init_start` invocations precede every
state-building step while the `on_init_end` invocations come after all of
them. -/
theorem callback_hooks_in_registration_order (cbs : List Nat) (a : TrainerArgs) :
    on_init_start cbs = cbs.map (Event.hook "on_init_start")
  ∧ on_init_end cbs = cbs.map (Event.hook "on_init_end")
  ∧ on_epoch_start cbs = cbs.map (Event.hook "on_epoch_start")
  ∧ on_epoch_end cbs = cbs.map (Event.hook "on_epoch_end")
  ∧ on_train_start cbs = cbs.map (Event.hook "on_train_start")
  ∧ on_train_end cbs = cbs.map (Event.hook "on_train_end")
  ∧ on_batch_start cbs = cbs.map (Event.hook "on_batch_start")
  ∧ on_batch_end cbs = cbs.map (Event.hook "on_batch_end")
  ∧ on_validation_start cbs = cbs.map (Event.hook "on_validation_start")
  ∧ on_validation_end cbs = cbs.map (Event.hook "on_validation_end")
  ∧ on_test_start cbs = cbs.map (Event.hook "on_test_start")
  ∧ on_test_end cbs = cbs.map (Event.hook "on_test_end")
  ∧ (initTrainer a).toOption.map (fun st => st.trace)
      = (initTrainer a).toOption.map
          (fun _ => on_init_start a.callbacks ++ initBuildEvents ++ on_init_end a.callbacks)
  ∧ initBuildEvents.all
      (fun ev => match ev with | .build _ => true | .hook _ _ => false) = true := by
  refine ⟨fireHooks_eq_map _ _, fireHooks_eq_map _ _, fireHooks_eq_map _ _,
    fireHooks_eq_map _ _, fireHooks_eq_map _ _, fireHooks_eq_map _ _,
    fireHooks_eq_map _ _, fireHooks_eq_map _ _, fireHooks_eq_map _ _,
    fireHooks_eq_map _ _, fireHooks_eq_map _ _, fireHooks_eq_map _ _, ?_, rfl⟩
  dsimp only [initTrainer]
  split
  · split <;> rfl
  · rfl

/-- A learning-rate scheduler descriptor after normalization: the dict with
default interval, frequency, plateau-mode and monitor keys that
`test_optimizer_return_options` (tests/trainer/test_optimizers.py lines
182-237) asserts. -/
structure SchedulerDescr (S : Type) where
  scheduler : S
  interval : String
  frequency : Nat
  reduce_on_plateau : Bool
  monitor : String
deriving DecidableEq, Repr

/-- Modelled from the spec: `configure_schedulers` of the optimizers mixin
(`pytorch_lightning/trainer/optimizers.py`, not among the sources) wraps a
bare scheduler in the default descriptor the tests assert. -/
def configureScheduler {S : Type} (s : S) : SchedulerDescr S :=
  ⟨s, "epoch", 1, false, "val_loss"⟩

/-- The accepted return shapes of `configure_optimizers` (spec section 6):
None, a single optimizer, a list or tuple of optimizers, a tuple of two
lists (optimizers, schedulers), a single dict, or a list of dicts each
carrying an optimizer with optional scheduler and frequency. -/
inductive OptimConf (O S : Type) where
  | noneConf
  | single (o : O)
  | several (os : List O)
  | twoLists (os : List O) (ss : List S)
  | oneDict (o : O) (s : Option S) (f : Option Nat)
  | manyDicts (ds : List (O × Option S × Option Nat))

/-- Modelled from the spec: `TrainerOptimizersMixin.init_optimizers`
(`pytorch_lightning/trainer/optimizers.py`, not among the sources)
normalizes every accepted `configure_optimizers` return shape positionally
into (optimizer list, scheduler-descriptor list, frequency list), as the
spec and `test_optimizer_return_options` describe. -/
def init_optimizers {O S : Type} : OptimConf O S → List O × List (SchedulerDescr S) × List Nat
  | .noneConf => ([], [], [])
  | .single o => ([o], [], [])
  | .several os => (os, [], [])
  | .twoLists os ss => (os, ss.map configureScheduler, [])
  | .oneDict o s _ => ([o], (s.map configureScheduler).toList, [])
  | .manyDicts ds => (ds.map (fun d => d.1),
      ds.filterMap (fun d => d.2.1.map configureScheduler),
      ds.filterMap (fun d => d.2.2))

/-- Claim C5: `init_optimizers` normalizes positionally — a single
optimizer gives list length 1 with empty scheduler and frequency lists; a
tuple `(opt_a, opt_b)` gives `[opt_a, opt_b]` in order; dicts each carrying
optimizer, scheduler and frequency give the frequencies in supplied order
with one scheduler entry per dict. -/
theorem init_optimizers_normalizes {O S : Type} (o oa ob : O) (sa sb : S)
    (f1 f2 : Nat) :
    init_optimizers (OptimConf.single o : OptimConf O S) = ([o], [], [])
  ∧ init_optimizers (OptimConf.several [oa, ob] : OptimConf O S) = ([oa, ob], [], [])
  ∧ init_optimizers (OptimConf.manyDicts [(oa, some sa, some f1), (ob, some sb, some f2)])
      = ([oa, ob], [configureScheduler sa, configureScheduler sb], [f1, f2]) := by
  refine ⟨rfl, rfl, ?_⟩
  simp [init_optimizers]

/-- The observable state of a `TensorBoardLogger`: the `self.tags` dict,
the scalar events written through `add_scalar`, the number of summary
records written, and the contents of each written meta_tags csv file. -/
structure TBState where
  tags : List (String × String) := []
  scalars : List (String × ℚ × Option Nat) := []
  summaries : Nat := 0
  files : List (List (String × String)) := []
deriving DecidableEq, Repr

/-- Modelled from the spec: the `rank_zero_only` decorator of
`pytorch_lightning/loggers/base.py` (not among the sources): the decorated
method body runs only on the rank-zero process; on every other rank the
call returns immediately, a complete no-op. -/
def rank_zero_only (f : TBState → TBState) (rank : Nat) (st : TBState) : TBState :=
  if rank = 0 then f st else st

/-- Body of `TensorBoardLogger.log_hyperparams` (tensorboard.py lines
97-118), torch >= 1.3 branch: writes the three hparams summary records and
merges the sanitized params into `self.tags`. -/
def logHyperparamsBody (params : List (String × String)) (st : TBState) : TBState :=
  { st with summaries := st.summaries + 3,
            tags := st.tags.filter (fun kv => !(params.any (fun p => p.1 == kv.1))) ++ params }

/-- Body of `TensorBoardLogger.log_metrics` (tensorboard.py lines 120-125):
one `add_scalar` event per metric entry, in order. -/
def logMetricsBody (metrics : List (String × ℚ)) (step : Option Nat) (st : TBState) : TBState :=
  { st with scalars := st.scalars ++ metrics.map (fun kv => (kv.1, kv.2, step)) }

/-- Body of `TensorBoardLogger.save` (tensorboard.py lines 127-148): flush
the writer, then write the meta_tags csv — a header row followed by one row
per tag. -/
def saveBody (st : TBState) : TBState :=
  { st with files := st.files ++ [("key", "value") :: st.tags] }

/-- `TensorBoardLogger.log_hyperparams`, `rank_zero_only`-decorated. -/
def TBState.log_hyperparams (rank : Nat) (st : TBState)
    (params : List (String × String)) : TBState :=
  rank_zero_only (logHyperparamsBody params) rank st

/-- `TensorBoardLogger.log_metrics`, `rank_zero_only`-decorated. -/
def TBState.log_metrics (rank : Nat) (st : TBState)
    (metrics : List (String × ℚ)) (step : Option Nat) : TBState :=
  rank_zero_only (logMetricsBody metrics step) rank st

/-- `TensorBoardLogger.save`, `rank_zero_only`-decorated. -/
def TBState.save (rank : Nat) (st : TBState) : TBState :=
  rank_zero_only saveBody rank st

/-- `TensorBoardLogger.finalize` (tensorboard.py lines 150-152),
`rank_zero_only`-decorated: its body calls save. -/
def TBState.finalize (rank : Nat) (st : TBState) (_status : String) : TBState :=
  rank_zero_only saveBody rank st

/-- Claim C9: on any process of non-zero rank, every metric-writing logger
call is a complete no-op leaving the state unchanged, while on rank zero
the same calls perform their writes. -/
theorem nonzero_rank_logger_noop (r : Nat) (st : TBState)
    (metrics : List (String × ℚ)) (step : Option Nat)
    (params : List (String × String)) (status : String) (k : String) (v : ℚ) :
    TBState.log_metrics (r + 1) st metrics step = st
  ∧ TBState.log_hyperparams (r + 1) st params = st
  ∧ TBState.save (r + 1) st = st
  ∧ TBState.finalize (r + 1) st status = st
  ∧ (TBState.log_metrics 0 st ((k, v) :: metrics) step).scalars.length
      = st.scalars.length + metrics.length + 1
  ∧ (TBState.log_hyperparams 0 st params).summaries = st.summaries + 3
  ∧ (TBState.save 0 st).files.length = st.files.length + 1
  ∧ (TBState.finalize 0 st status).files.length = st.files.length + 1 := by
  refine ⟨?_, ?_, ?_, ?_, ?_, ?_, ?_, ?_⟩ <;>
    (simp [TBState.log_metrics, TBState.log_hyperparams, TBState.save, TBState.finalize,
       rank_zero_only, logMetricsBody, logHyperparamsBody, saveBody]
     <;> try omega)

end PL
